import Mathlib

/-!
Verification of the money-accounting core of the financee personal finance
tracker.  Shallow embedding of `core/domain/money_engine.py`,
`core/domain/transactions_service.py`, `core/domain/budgets_service.py`,
`core/domain/savings_service.py` and the relevant models of
`core/models.py`.

Monetary amounts are `DecimalField(max_digits=12, decimal_places=2)`
values; Python `Decimal` addition, subtraction and comparison are exact,
so they embed faithfully into the rationals.
-/

/-- Monetary values (exact decimal arithmetic embedded into the rationals). -/
abbrev Money := ℚ

/-- `core/models.py` `Profile`: `monthly_income` and `money_on_hand` decimals.
`money_on_hand` is kept as an `Option` because the money engine defends
against a null or unset balance with `(profile.money_on_hand or Decimal(0))`. -/
structure Profile where
  monthly_income : Money
  money_on_hand : Option Money
deriving Repr, DecidableEq

/-- A Python `datetime.date` (proleptic Gregorian year, month, day). -/
structure PyDate where
  year : Nat
  month : Nat
  day : Nat
deriving Repr, DecidableEq

/-- Gregorian leap-year test used by Python `datetime.date`. -/
def isLeapYear (y : Nat) : Bool :=
  y % 4 = 0 && (y % 100 ≠ 0 || y % 400 = 0)

/-- Number of days in a Gregorian month. -/
def daysInMonth (y m : Nat) : Nat :=
  if m = 2 then (if isLeapYear y then 29 else 28)
  else if m = 4 ∨ m = 6 ∨ m = 9 ∨ m = 11 then 30
  else 31

/-- The calendar day after `d`. -/
def PyDate.nextDay (d : PyDate) : PyDate :=
  if d.day < daysInMonth d.year d.month then ⟨d.year, d.month, d.day + 1⟩
  else if d.month < 12 then ⟨d.year, d.month + 1, 1⟩
  else ⟨d.year + 1, 1, 1⟩

/-- Python `date + timedelta(days=n)`. -/
def PyDate.addDays (d : PyDate) : Nat → PyDate
  | 0 => d
  | n + 1 => d.nextDay.addDays n

/-- The calendar day before `d` (Python `date - timedelta(days=1)`). -/
def PyDate.prevDay (d : PyDate) : PyDate :=
  if 1 < d.day then ⟨d.year, d.month, d.day - 1⟩
  else if 1 < d.month then ⟨d.year, d.month - 1, daysInMonth d.year (d.month - 1)⟩
  else ⟨d.year - 1, 12, 31⟩

/-- Python `date.replace(day=n)`. -/
def PyDate.replaceDay (d : PyDate) (n : Nat) : PyDate :=
  ⟨d.year, d.month, n⟩

/-- `core/models.py` `Category` (the per-user fields: name, type tag, color). -/
structure Category where
  name : String
  category_type : String
  color : String
deriving Repr, DecidableEq

/-- `core/models.py` `Budget`.  The model file declares name, amount,
budget_type, optional category, start_date and is_active.  The `end_date`
attribute is written by `budgets_service.py` and read by `views.py` but its
column declaration is not among the source files; it is carried here as the
spec describes it (see `createMonthlyBudget`). -/
structure Budget where
  name : String
  amount : Money
  budget_type : String
  category : Option Category
  start_date : PyDate
  end_date : Option PyDate
  is_active : Bool
deriving Repr, DecidableEq

/-- `core/models.py` `Transaction`.  `category` is a plain foreign key with
neither `null=True` nor `blank=True`, hence NOT NULL at the store level;
`date` likewise (its default applies only when the argument is absent). -/
structure Transaction where
  title : String
  description : String
  amount : Money
  transaction_type : String
  category : Option Category
  date : Option PyDate
deriving Repr, DecidableEq

/-- `core/models.py` `Savings`. -/
structure Savings where
  amount : Money
  description : String
  date : PyDate
deriving Repr, DecidableEq

/-- The slice of the relational store belonging to one user: their profile
row and their category, budget, transaction and savings rows. -/
structure LedgerState where
  profile : Profile
  categories : List Category
  budgets : List Budget
  transactions : List Transaction
  savings : List Savings
deriving Repr, DecidableEq

/-- `money_engine.py` `MoneyEngine.apply_transaction_to_profile`: add the
amount for income, subtract it for expense or savings, do nothing for any
other type; a null balance is treated as zero (`money_on_hand or Decimal(0)`
also replaces an exact-zero balance by zero, which is the same value). -/
def applyTransactionToProfile (tx : Transaction) (p : Profile) : Profile :=
  if tx.transaction_type = "income" then
    { p with money_on_hand := some (p.money_on_hand.getD 0 + tx.amount) }
  else if tx.transaction_type = "expense" ∨ tx.transaction_type = "savings" then
    { p with money_on_hand := some (p.money_on_hand.getD 0 - tx.amount) }
  else
    p

/-- Modelled from the spec: `Profile.available_to_allocate` is called by
`money_engine.py` but its definition is not among the source files.  The
spec defines the derived quantity `total_allocated` as the sum of `amount`
over the active budgets of the user. -/
def totalAllocated (budgets : List Budget) : Money :=
  ((budgets.filter fun b => b.is_active).map Budget.amount).sum

/-- Modelled from the spec: `available_to_allocate` is `money_on_hand`
minus `total_allocated` (a null balance counting as zero, the convention
of the money engine). -/
def availableToAllocate (p : Profile) (budgets : List Budget) : Money :=
  p.money_on_hand.getD 0 - totalAllocated budgets

/-- `money_engine.py` `MoneyEngine.allocate_budget`: reject a missing
amount, reject an amount above `available_to_allocate`, otherwise deduct
it from the balance.  `budgets` is the budget table restricted to the
owning user, over which `available_to_allocate` is derived. -/
def allocateBudget (p : Profile) (budgets : List Budget) (amount : Option Money) :
    Except String Profile :=
  match amount with
  | none => .error "Amount is required"
  | some a =>
      if a > availableToAllocate p budgets then
        .error "Insufficient available funds to allocate budget"
      else
        .ok { p with money_on_hand := some (p.money_on_hand.getD 0 - a) }

/-- `money_engine.py` `MoneyEngine.adjust_allocation`: delta zero is a
no-op; a positive delta is checked against `available_to_allocate` and
deducted; a negative delta is added back. -/
def adjustAllocation (p : Profile) (budgets : List Budget)
    (old_amount new_amount : Money) : Except String Profile :=
  let delta := new_amount - old_amount
  if delta = 0 then .ok p
  else if delta > 0 then
    if delta > availableToAllocate p budgets then
      .error "Insufficient available funds to increase budget allocation"
    else
      .ok { p with money_on_hand := some (p.money_on_hand.getD 0 - delta) }
  else
    .ok { p with money_on_hand := some (p.money_on_hand.getD 0 - delta) }

/-- The atomic-unit semantics of a failed allocation: on an error the
whole unit rolls back, so the state is unchanged; on success only the
profile row is replaced. -/
def runAllocate (st : LedgerState) (amount : Option Money) : LedgerState :=
  match allocateBudget st.profile st.budgets amount with
  | .ok p => { st with profile := p }
  | .error _ => st

/-- Python `str.capitalize`: first character upper-cased, the rest
lower-cased. -/
def pyCapitalize (s : String) : String :=
  match s.toList with
  | [] => ""
  | c :: cs => String.mk (c.toUpper :: cs.map Char.toLower)

/-- `transactions_service.py` `TransactionService.create_transaction`:
insert a Transaction row (title falling back to the capitalized type when
blank), then apply its balance effect through the money engine, all in one
atomic unit.  The insert itself fails on a null `category` or a null
`date`: both columns are NOT NULL in `core/models.py` and an explicitly
passed `None` bypasses the date default. -/
def createTransaction (st : LedgerState) (amount : Money) (tx_type : String)
    (category : Option Category) (title description : String)
    (date : Option PyDate) : Except String (LedgerState × Transaction) :=
  match category, date with
  | none, _ => .error "NOT NULL constraint failed: core_transaction.category_id"
  | _, none => .error "NOT NULL constraint failed: core_transaction.date"
  | some c, some dt =>
      let tx : Transaction :=
        { title := if title = "" then pyCapitalize tx_type else title
          description := description
          amount := amount
          transaction_type := tx_type
          category := some c
          date := some dt }
      let st1 := { st with transactions := st.transactions ++ [tx] }
      .ok ({ st1 with profile := applyTransactionToProfile tx st1.profile }, tx)

/-- `savings_service.py`: `Category.objects.get_or_create(user=user,
category_type=savings, defaults=Name Savings)` — reuse the first existing
savings-type category of the user, else insert one named "Savings" with
the default color. -/
def getOrCreateSavingsCategory (st : LedgerState) : LedgerState × Category :=
  match st.categories.find? (fun c => c.category_type = "savings") with
  | some c => (st, c)
  | none =>
      let c : Category := { name := "Savings", category_type := "savings", color := "#6f42c1" }
      ({ st with categories := st.categories ++ [c] }, c)

/-- `savings_service.py` `SavingsService.create_savings`: insert a Savings
row, ensure the savings category, then delegate to the transaction service
for a mirrored savings-type Transaction (which applies the deduction);
the Transaction is what is returned. -/
def createSavings (st : LedgerState) (amount : Money) (description : String)
    (date : PyDate) : Except String (LedgerState × Transaction) :=
  let st1 := { st with savings := st.savings ++ [{ amount := amount, description := description, date := date }] }
  let pair := getOrCreateSavingsCategory st1
  createTransaction pair.1 amount "savings" (some pair.2)
    (if description = "" then "Savings" else description) description (some date)

/-- `budgets_service.py` `create_monthly_budget` end-date computation:
jump to day 28, add 4 days, truncate to day 1, subtract one day. -/
def monthLastDay (month_start : PyDate) : PyDate :=
  (((month_start.replaceDay 28).addDays 4).replaceDay 1).prevDay

/-- `budgets_service.py` `BudgetService.create_monthly_budget`: reserve the
amount through the money engine first (propagating its failure, which
aborts the whole atomic unit), then insert the monthly Budget and set its
end date to the last day of the month of `month_start`. -/
def createMonthlyBudget (st : LedgerState) (amount : Money) (month_start : PyDate) :
    Except String (LedgerState × Budget) :=
  match allocateBudget st.profile st.budgets (some amount) with
  | .error e => .error e
  | .ok p =>
      let b : Budget :=
        { name := "Monthly Budget"
          amount := amount
          budget_type := "monthly"
          category := none
          start_date := month_start
          end_date := some (monthLastDay month_start)
          is_active := true }
      .ok ({ st with profile := p, budgets := st.budgets ++ [b] }, b)

/-- `budgets_service.py` `BudgetService.create_weekly_budget`: same
pattern with end date `start_date + 6` days. -/
def createWeeklyBudget (st : LedgerState) (amount : Money) (start_date : PyDate) :
    Except String (LedgerState × Budget) :=
  match allocateBudget st.profile st.budgets (some amount) with
  | .error e => .error e
  | .ok p =>
      let b : Budget :=
        { name := "Weekly Budget"
          amount := amount
          budget_type := "weekly"
          category := none
          start_date := start_date
          end_date := some (start_date.addDays 6)
          is_active := true }
      .ok ({ st with profile := p, budgets := st.budgets ++ [b] }, b)

/-- `budgets_service.py` `BudgetService.close_budget` on the budget row:
only the `is_active` flag is written. -/
def closeBudget (b : Budget) : Budget :=
  { b with is_active := false }

/-- `close_budget` at the store level: the budget row at index `i` is
rewritten with `is_active = false`; no other row is touched. -/
def closeBudgetInState (st : LedgerState) (i : Nat) (h : i < st.budgets.length) :
    LedgerState :=
  { st with budgets := st.budgets.set i (closeBudget (st.budgets.get ⟨i, h⟩)) }

/-- Folding a list of saved transactions through the money engine. -/
def applyAll (ts : List Transaction) (p : Profile) : Profile :=
  ts.foldl (fun q t => applyTransactionToProfile t q) p

/-- Total amount of the transactions of one type in a list. -/
def sumOfType (ty : String) (ts : List Transaction) : Money :=
  ((ts.filter fun t => t.transaction_type = ty).map Transaction.amount).sum

/-- Claim C2: apply_transaction_to_profile adds the amount to the balance
for an income transaction, subtracts it for an expense or a savings
transaction, and leaves the balance unchanged for any other type; a null
prior balance counts as zero in the arithmetic. -/
theorem applyTransaction_case_analysis (p : Profile) (t : Transaction) :
    (t.transaction_type = "income" →
      applyTransactionToProfile t p =
        { p with money_on_hand := some (p.money_on_hand.getD 0 + t.amount) }) ∧
    (t.transaction_type = "expense" ∨ t.transaction_type = "savings" →
      applyTransactionToProfile t p =
        { p with money_on_hand := some (p.money_on_hand.getD 0 - t.amount) }) ∧
    (t.transaction_type ≠ "income" → t.transaction_type ≠ "expense" →
      t.transaction_type ≠ "savings" →
      applyTransactionToProfile t p = p) := by
  refine ⟨fun h => ?_, fun h => ?_, fun h1 h2 h3 => ?_⟩
  · simp [applyTransactionToProfile, h]
  · rcases h with h | h <;> simp [applyTransactionToProfile, h]
  · simp [applyTransactionToProfile, h1, h2, h3]

/-- Witness for C2: an income of 7 applied to a profile whose balance is
null (unset) yields a balance of 7, the null having counted as zero. -/
theorem applyTransaction_case_analysis_witness :
    applyTransactionToProfile ⟨"Allowance", "", 7, "income", none, none⟩ ⟨0, none⟩ =
      ⟨0, some 7⟩ := by
  have h := (applyTransaction_case_analysis ⟨0, none⟩
    ⟨"Allowance", "", 7, "income", none, none⟩).1 rfl
  simpa using h

/-- Claim C9 (code finding): `Transaction.category` is declared in
core/models.py as a foreign key with neither null=True nor blank=True, so
the insert performed by create_transaction with its default category of
None violates the NOT NULL constraint: the call fails and no balance
effect is applied, against the spec sentence that the Category reference
is optional. -/
theorem create_transaction_requires_category (st : LedgerState) (amount : Money)
    (tx_type title description : String) (d : PyDate) :
    createTransaction st amount tx_type none title description (some d) =
      .error "NOT NULL constraint failed: core_transaction.category_id" := rfl

/-- Claim C10: apply_transaction_to_profile performs no sufficiency check:
an expense or savings transaction whose amount exceeds the current balance
succeeds and leaves the balance strictly negative. -/
theorem no_balance_floor (p : Profile) (t : Transaction)
    (hty : t.transaction_type = "expense" ∨ t.transaction_type = "savings")
    (hgt : p.money_on_hand.getD 0 < t.amount) :
    (applyTransactionToProfile t p).money_on_hand =
      some (p.money_on_hand.getD 0 - t.amount) ∧
    p.money_on_hand.getD 0 - t.amount < 0 := by
  constructor
  · rcases hty with h | h <;> simp [applyTransactionToProfile, h]
  · linarith

/-- Witness for C10: an expense of 10 against a balance of 5 goes through
and leaves the balance at -5. -/
theorem no_balance_floor_witness :
    (applyTransactionToProfile ⟨"Bills", "", 10, "expense", none, none⟩
      ⟨0, some 5⟩).money_on_hand = some (-5) ∧ ((-5 : Money) < 0) := by
  have h := no_balance_floor ⟨0, some 5⟩ ⟨"Bills", "", 10, "expense", none, none⟩
    (Or.inl rfl) (by norm_num)
  constructor
  · have h1 := h.1
    norm_num at h1
    exact h1
  · norm_num

/-- Claim C8: close_budget writes only the is_active flag of the one
budget row: the profile (hence money_on_hand), the other tables, every
other budget row and the amount of the closed budget are exactly as
before; no refund of unspent reserved funds happens. -/
theorem close_budget_frame (st : LedgerState) (i : Nat) (h : i < st.budgets.length) :
    (closeBudgetInState st i h).profile = st.profile ∧
    (closeBudgetInState st i h).transactions = st.transactions ∧
    (closeBudgetInState st i h).savings = st.savings ∧
    (closeBudgetInState st i h).categories = st.categories ∧
    ((closeBudgetInState st i h).budgets[i]? =
      some { st.budgets.get ⟨i, h⟩ with is_active := false }) ∧
    (closeBudget (st.budgets.get ⟨i, h⟩)).amount = (st.budgets.get ⟨i, h⟩).amount ∧
    (∀ j : Nat, j ≠ i → (closeBudgetInState st i h).budgets[j]? = st.budgets[j]?) := by
  refine ⟨rfl, rfl, rfl, rfl, ?_, rfl, ?_⟩
  · simp [closeBudgetInState, closeBudget, List.getElem?_set, h]
  · intro j hj
    simp [closeBudgetInState, List.getElem?_set, Ne.symm hj]

/-- Witness for C8 on a one-budget store: closing the budget flips only
its flag and the balance of 100 stays. -/
theorem close_budget_frame_witness :
    (closeBudgetInState
        ⟨⟨0, some 100⟩, [], [⟨"Monthly Budget", 40, "monthly", none, ⟨2024, 1, 1⟩, none, true⟩], [], []⟩
        0 (by simp)).profile = ⟨0, some 100⟩ ∧
    (closeBudgetInState
        ⟨⟨0, some 100⟩, [], [⟨"Monthly Budget", 40, "monthly", none, ⟨2024, 1, 1⟩, none, true⟩], [], []⟩
        0 (by simp)).budgets[0]? =
      some ⟨"Monthly Budget", 40, "monthly", none, ⟨2024, 1, 1⟩, none, false⟩ := by
  have h := close_budget_frame
    ⟨⟨0, some 100⟩, [], [⟨"Monthly Budget", 40, "monthly", none, ⟨2024, 1, 1⟩, none, true⟩], [], []⟩
    0 (by simp)
  exact ⟨h.1, h.2.2.2.2.1⟩

/-- With every budget inactive nothing is allocated. -/
theorem totalAllocated_eq_zero (budgets : List Budget)
    (hb : ∀ b ∈ budgets, b.is_active = false) : totalAllocated budgets = 0 := by
  have hnil : budgets.filter (fun b => b.is_active) = [] := by
    rw [List.filter_eq_nil_iff]
    intro b hbmem
    simp [hb b hbmem]
  simp [totalAllocated, hnil]

/-- Claim C3: with a balance of 100 and no active budgets, allocating 150
fails with the insufficient-funds error, and the rolled-back state (hence
money_on_hand, still 100) is exactly the pre-call state. -/
theorem allocation_rejection (st : LedgerState)
    (hp : st.profile.money_on_hand = some 100)
    (hb : ∀ b ∈ st.budgets, b.is_active = false) :
    allocateBudget st.profile st.budgets (some 150) =
      .error "Insufficient available funds to allocate budget" ∧
    runAllocate st (some 150) = st ∧
    (runAllocate st (some 150)).profile.money_on_hand = some 100 := by
  have havail : availableToAllocate st.profile st.budgets = 100 := by
    simp [availableToAllocate, hp, totalAllocated_eq_zero st.budgets hb]
  have herr : allocateBudget st.profile st.budgets (some 150) =
      .error "Insufficient available funds to allocate budget" := by
    simp only [allocateBudget, havail]
    norm_num
  refine ⟨herr, ?_, ?_⟩ <;> simp [runAllocate, herr, hp]

/-- Witness for C3 on the empty store with balance 100. -/
theorem allocation_rejection_witness :
    allocateBudget (⟨0, some 100⟩ : Profile) [] (some 150) =
      .error "Insufficient available funds to allocate budget" ∧
    runAllocate ⟨⟨0, some 100⟩, [], [], [], []⟩ (some 150) =
      ⟨⟨0, some 100⟩, [], [], [], []⟩ := by
  have h := allocation_rejection ⟨⟨0, some 100⟩, [], [], [], []⟩ rfl (by simp)
  exact ⟨h.1, h.2.1⟩

/-- Claim C4: with a balance of 100 and no active budgets, allocating 40
succeeds, the balance becomes 60, and counting the newly created active
budget of 40 the available-to-allocate headroom is 20. -/
theorem allocation_success (st : LedgerState)
    (hp : st.profile.money_on_hand = some 100)
    (hb : ∀ b ∈ st.budgets, b.is_active = false) :
    ∃ p2 : Profile,
      allocateBudget st.profile st.budgets (some 40) = .ok p2 ∧
      p2.money_on_hand = some 60 ∧
      ∀ nb : Budget, nb.amount = 40 → nb.is_active = true →
        availableToAllocate p2 (nb :: st.budgets) = 20 := by
  have havail : availableToAllocate st.profile st.budgets = 100 := by
    simp [availableToAllocate, hp, totalAllocated_eq_zero st.budgets hb]
  have hcond : ¬((40 : Money) > availableToAllocate st.profile st.budgets) := by
    rw [havail]; norm_num
  refine ⟨{ st.profile with money_on_hand := some (st.profile.money_on_hand.getD 0 - 40) },
    ?_, ?_, ?_⟩
  · simp [allocateBudget, hcond]
  · simp [hp]; norm_num
  · intro nb h40 hact
    simp [availableToAllocate, totalAllocated, hp, h40, hact,
      totalAllocated_eq_zero st.budgets hb]
    have : ((st.budgets.filter fun b => b.is_active).map Budget.amount).sum = 0 := by
      have := totalAllocated_eq_zero st.budgets hb
      simpa [totalAllocated] using this
    rw [this]
    norm_num

/-- Witness for C4 on the empty store with balance 100. -/
theorem allocation_success_witness :
    allocateBudget (⟨0, some 100⟩ : Profile) [] (some 40) = .ok ⟨0, some 60⟩ ∧
    availableToAllocate ⟨0, some 60⟩
      [⟨"Monthly Budget", 40, "monthly", none, ⟨2024, 1, 1⟩, none, true⟩] = 20 := by
  obtain ⟨p2, h1, h2, h3⟩ := allocation_success ⟨⟨0, some 100⟩, [], [], [], []⟩ rfl (by simp)
  have hval : allocateBudget (⟨0, some 100⟩ : Profile) [] (some 40) = .ok ⟨0, some 60⟩ := by
    norm_num [allocateBudget, availableToAllocate, totalAllocated]
  rw [h1] at hval
  have hp2 : p2 = (⟨0, some 60⟩ : Profile) := by simpa using hval
  subst hp2
  exact ⟨h1, h3 _ rfl rfl⟩

/-- Claim C5 counterexample: the claim asserts that whenever
new_amount - old_amount exceeds available-to-allocate the call fails, with
no restriction to increases.  With a balance of -10 (reachable, since
expenses have no floor), old = 5 and new = 2, the delta -3 exceeds the
available -10, yet adjust_allocation takes the decrease branch and refunds
3 instead of failing. -/
theorem adjust_allocation_counterexample :
    ((2 : Money) - 5 > availableToAllocate ⟨0, some (-10)⟩ []) ∧
    adjustAllocation ⟨0, some (-10)⟩ [] 5 2 = .ok ⟨0, some (-7)⟩ := by
  constructor
  · norm_num [availableToAllocate, totalAllocated]
  · norm_num [adjustAllocation]

/-- Claim C5 (amended): adjust_allocation is a no-op when the new amount
equals the old one; refunds old - new when the new amount is smaller; and
when the new amount is larger and the increase exceeds
available-to-allocate it fails with the insufficient-funds error, leaving
the balance unchanged. -/
theorem adjust_allocation_cases (p : Profile) (budgets : List Budget)
    (old_amount new_amount : Money) :
    (new_amount = old_amount →
      adjustAllocation p budgets old_amount new_amount = .ok p) ∧
    (new_amount < old_amount →
      adjustAllocation p budgets old_amount new_amount =
        .ok { p with
          money_on_hand := some (p.money_on_hand.getD 0 + (old_amount - new_amount)) }) ∧
    (old_amount < new_amount →
      new_amount - old_amount > availableToAllocate p budgets →
      adjustAllocation p budgets old_amount new_amount =
        .error "Insufficient available funds to increase budget allocation") := by
  refine ⟨fun h => ?_, fun h => ?_, fun h hgt => ?_⟩
  · simp [adjustAllocation, h]
  · have h0 : ¬(new_amount - old_amount = 0) := sub_ne_zero.mpr (ne_of_lt h)
    have h1 : ¬(new_amount - old_amount > 0) := by linarith
    simp only [adjustAllocation, h0, h1, if_false]
    have harith : p.money_on_hand.getD 0 - (new_amount - old_amount) =
        p.money_on_hand.getD 0 + (old_amount - new_amount) := by ring
    rw [harith]
  · have h1 : new_amount - old_amount > 0 := sub_pos.mpr h
    have h0 : ¬(new_amount - old_amount = 0) := ne_of_gt h1
    simp [adjustAllocation, h0, h1, hgt]

/-- Witness for C5 along the spec scenario: balance 60 with an active
budget of 40, shrinking it to 25 refunds 15; then 25 to 25 is a no-op;
then 25 to 1000 exceeds the available 50 and fails. -/
theorem adjust_allocation_cases_witness :
    adjustAllocation ⟨0, some 60⟩
      [⟨"Monthly Budget", 40, "monthly", none, ⟨2024, 1, 1⟩, none, true⟩] 40 25 =
      .ok ⟨0, some 75⟩ ∧
    adjustAllocation ⟨0, some 75⟩
      [⟨"Monthly Budget", 25, "monthly", none, ⟨2024, 1, 1⟩, none, true⟩] 25 25 =
      .ok ⟨0, some 75⟩ ∧
    adjustAllocation ⟨0, some 75⟩
      [⟨"Monthly Budget", 25, "monthly", none, ⟨2024, 1, 1⟩, none, true⟩] 25 1000 =
      .error "Insufficient available funds to increase budget allocation" := by
  have h1 := (adjust_allocation_cases ⟨0, some 60⟩
    [⟨"Monthly Budget", 40, "monthly", none, ⟨2024, 1, 1⟩, none, true⟩] 40 25).2.1
    (by norm_num)
  have h2 := (adjust_allocation_cases ⟨0, some 75⟩
    [⟨"Monthly Budget", 25, "monthly", none, ⟨2024, 1, 1⟩, none, true⟩] 25 25).1 rfl
  have h3 := (adjust_allocation_cases ⟨0, some 75⟩
    [⟨"Monthly Budget", 25, "monthly", none, ⟨2024, 1, 1⟩, none, true⟩] 25 1000).2.2
    (by norm_num) (by norm_num [availableToAllocate, totalAllocated])
  refine ⟨?_, h2, h3⟩
  rw [h1]
  norm_num


/-- Claim C7: create_savings with amount 20 inserts exactly one Savings
row of 20 and exactly one mirrored Transaction row of type savings and
amount 20 (creating a savings-type Category named "Savings" when the user
has none), decreases the balance by 20, and returns the Transaction, not
the Savings record. -/
theorem savings_mirroring (st : LedgerState) (description : String) (d : PyDate) :
    ∃ st2 tx,
      createSavings st 20 description d = .ok (st2, tx) ∧
      st2.savings = st.savings ++ [⟨20, description, d⟩] ∧
      st2.transactions = st.transactions ++ [tx] ∧
      tx.transaction_type = "savings" ∧
      tx.amount = 20 ∧
      st2.profile.money_on_hand = some (st.profile.money_on_hand.getD 0 - 20) ∧
      (st.categories.find? (fun c => c.category_type = "savings") = none →
        st2.categories = st.categories ++ [⟨"Savings", "savings", "#6f42c1"⟩]) := by
  by_cases hd : description = ""
  · subst hd
    cases hf : st.categories.find? (fun c => c.category_type = "savings") with
    | some c =>
        refine ⟨{ st with
            savings := st.savings ++ [⟨20, "", d⟩],
            transactions := st.transactions ++ [⟨"Savings", "", 20, "savings", some c, some d⟩],
            profile := { st.profile with
              money_on_hand := some (st.profile.money_on_hand.getD 0 - 20) } },
          ⟨"Savings", "", 20, "savings", some c, some d⟩,
          ?_, rfl, rfl, rfl, rfl, rfl, ?_⟩
        · simp [createSavings, getOrCreateSavingsCategory, createTransaction,
            applyTransactionToProfile, hf]
        · intro hnone
          simp at hnone
    | none =>
        refine ⟨{ st with
            categories := st.categories ++ [⟨"Savings", "savings", "#6f42c1"⟩],
            savings := st.savings ++ [⟨20, "", d⟩],
            transactions := st.transactions ++
              [⟨"Savings", "", 20, "savings", some ⟨"Savings", "savings", "#6f42c1"⟩, some d⟩],
            profile := { st.profile with
              money_on_hand := some (st.profile.money_on_hand.getD 0 - 20) } },
          ⟨"Savings", "", 20, "savings", some ⟨"Savings", "savings", "#6f42c1"⟩, some d⟩,
          ?_, rfl, rfl, rfl, rfl, rfl, fun _ => rfl⟩
        simp [createSavings, getOrCreateSavingsCategory, createTransaction,
          applyTransactionToProfile, hf]
  · cases hf : st.categories.find? (fun c => c.category_type = "savings") with
    | some c =>
        refine ⟨{ st with
            savings := st.savings ++ [⟨20, description, d⟩],
            transactions := st.transactions ++
              [⟨description, description, 20, "savings", some c, some d⟩],
            profile := { st.profile with
              money_on_hand := some (st.profile.money_on_hand.getD 0 - 20) } },
          ⟨description, description, 20, "savings", some c, some d⟩,
          ?_, rfl, rfl, rfl, rfl, rfl, ?_⟩
        · simp [createSavings, getOrCreateSavingsCategory, createTransaction,
            applyTransactionToProfile, hf, hd]
        · intro hnone
          simp at hnone
    | none =>
        refine ⟨{ st with
            categories := st.categories ++ [⟨"Savings", "savings", "#6f42c1"⟩],
            savings := st.savings ++ [⟨20, description, d⟩],
            transactions := st.transactions ++
              [⟨description, description, 20, "savings",
                some ⟨"Savings", "savings", "#6f42c1"⟩, some d⟩],
            profile := { st.profile with
              money_on_hand := some (st.profile.money_on_hand.getD 0 - 20) } },
          ⟨description, description, 20, "savings",
            some ⟨"Savings", "savings", "#6f42c1"⟩, some d⟩,
          ?_, rfl, rfl, rfl, rfl, rfl, fun _ => rfl⟩
        simp [createSavings, getOrCreateSavingsCategory, createTransaction,
          applyTransactionToProfile, hf, hd]

/-- Witness for C7: on an empty store with balance 100, saving 20 creates
the Savings row, the savings category and the mirrored transaction, and
leaves the balance at 80. -/
theorem savings_mirroring_witness :
    createSavings ⟨⟨0, some 100⟩, [], [], [], []⟩ 20 "piggy bank" ⟨2024, 1, 15⟩ =
      .ok (⟨⟨0, some 80⟩, [⟨"Savings", "savings", "#6f42c1"⟩], [],
            [⟨"piggy bank", "piggy bank", 20, "savings",
              some ⟨"Savings", "savings", "#6f42c1"⟩, some ⟨2024, 1, 15⟩⟩],
            [⟨20, "piggy bank", ⟨2024, 1, 15⟩⟩]⟩,
           ⟨"piggy bank", "piggy bank", 20, "savings",
            some ⟨"Savings", "savings", "#6f42c1"⟩, some ⟨2024, 1, 15⟩⟩) ∧
    (⟨⟨0, some 80⟩, [⟨"Savings", "savings", "#6f42c1"⟩], [],
      [⟨"piggy bank", "piggy bank", 20, "savings",
        some ⟨"Savings", "savings", "#6f42c1"⟩, some ⟨2024, 1, 15⟩⟩],
      [⟨20, "piggy bank", ⟨2024, 1, 15⟩⟩]⟩ : LedgerState).profile.money_on_hand =
      some 80 := by
  obtain ⟨_st2, _tx, _h1, _h2, _h3, _h4, _h5, _h6, _h7⟩ :=
    savings_mirroring ⟨⟨0, some 100⟩, [], [], [], []⟩ "piggy bank" ⟨2024, 1, 15⟩
  have hv : createSavings ⟨⟨0, some 100⟩, [], [], [], []⟩ 20 "piggy bank" ⟨2024, 1, 15⟩ =
      .ok (⟨⟨0, some 80⟩, [⟨"Savings", "savings", "#6f42c1"⟩], [],
            [⟨"piggy bank", "piggy bank", 20, "savings",
              some ⟨"Savings", "savings", "#6f42c1"⟩, some ⟨2024, 1, 15⟩⟩],
            [⟨20, "piggy bank", ⟨2024, 1, 15⟩⟩]⟩,
           ⟨"piggy bank", "piggy bank", 20, "savings",
            some ⟨"Savings", "savings", "#6f42c1"⟩, some ⟨2024, 1, 15⟩⟩) := by
    simp [createSavings, getOrCreateSavingsCategory, createTransaction,
      applyTransactionToProfile]
    norm_num
  exact ⟨hv, rfl⟩

/-- The jump-to-28, add-4, truncate, step-back algorithm lands on the last
calendar day of the month of its input, for every month and year. -/
theorem monthLastDay_eq (y m d : Nat) (h1 : 1 ≤ m) (h2 : m ≤ 12) :
    monthLastDay ⟨y, m, d⟩ = ⟨y, m, daysInMonth y m⟩ := by
  interval_cases m
  all_goals
    by_cases hL : isLeapYear y = true <;>
      simp [monthLastDay, PyDate.replaceDay, PyDate.addDays, PyDate.nextDay,
        PyDate.prevDay, daysInMonth, hL]

/-- Claim C6: a Budget persisted by create_monthly_budget carries an
end_date equal to the last calendar day of the month of month_start,
computed by jumping to day 28, adding 4 days, truncating to day 1 and
stepping back one day; in particular the algorithm sends 2024-02-01 to
2024-02-29 and 2023-02-01 to 2023-02-28. -/
theorem monthly_end_date (st : LedgerState) (amount : Money) (y m d : Nat)
    (h1 : 1 ≤ m) (h2 : m ≤ 12) (st2 : LedgerState) (b : Budget)
    (hok : createMonthlyBudget st amount ⟨y, m, d⟩ = .ok (st2, b)) :
    b.end_date = some ⟨y, m, daysInMonth y m⟩ ∧
    st2.budgets = st.budgets ++ [b] ∧
    monthLastDay ⟨2024, 2, 1⟩ = ⟨2024, 2, 29⟩ ∧
    monthLastDay ⟨2023, 2, 1⟩ = ⟨2023, 2, 28⟩ := by
  unfold createMonthlyBudget at hok
  cases halloc : allocateBudget st.profile st.budgets (some amount) with
  | error e => rw [halloc] at hok; simp at hok
  | ok p =>
      rw [halloc] at hok
      simp only [Except.ok.injEq, Prod.mk.injEq] at hok
      obtain ⟨hst2, hb⟩ := hok
      subst hst2
      subst hb
      refine ⟨?_, rfl, by decide, by decide⟩
      have hcore := monthLastDay_eq y m d h1 h2
      simp only []
      rw [hcore]

/-- Witness for C6: on a store with balance 100, creating the monthly
budget of 50 for February 2024 succeeds and the persisted budget ends on
2024-02-29. -/
theorem monthly_end_date_witness :
    createMonthlyBudget ⟨⟨0, some 100⟩, [], [], [], []⟩ 50 ⟨2024, 2, 1⟩ =
      .ok (⟨⟨0, some 50⟩, [],
            [⟨"Monthly Budget", 50, "monthly", none, ⟨2024, 2, 1⟩, some ⟨2024, 2, 29⟩, true⟩],
            [], []⟩,
           ⟨"Monthly Budget", 50, "monthly", none, ⟨2024, 2, 1⟩, some ⟨2024, 2, 29⟩, true⟩) ∧
    (⟨"Monthly Budget", 50, "monthly", none, ⟨2024, 2, 1⟩, some ⟨2024, 2, 29⟩, true⟩ : Budget).end_date =
      some ⟨2024, 2, 29⟩ := by
  have hok : createMonthlyBudget ⟨⟨0, some 100⟩, [], [], [], []⟩ 50 ⟨2024, 2, 1⟩ =
      .ok (⟨⟨0, some 50⟩, [],
            [⟨"Monthly Budget", 50, "monthly", none, ⟨2024, 2, 1⟩, some ⟨2024, 2, 29⟩, true⟩],
            [], []⟩,
           ⟨"Monthly Budget", 50, "monthly", none, ⟨2024, 2, 1⟩, some ⟨2024, 2, 29⟩, true⟩) := by
    norm_num [createMonthlyBudget, allocateBudget, availableToAllocate, totalAllocated,
      monthLastDay, PyDate.replaceDay, PyDate.addDays, PyDate.nextDay, PyDate.prevDay,
      daysInMonth, isLeapYear]
  have h := monthly_end_date ⟨⟨0, some 100⟩, [], [], [], []⟩ 50 2024 2 1
    (by norm_num) (by norm_num) _ _ hok
  exact ⟨hok, h.1⟩

/-- Splitting a typed sum at the head of a list. -/
theorem sumOfType_cons (ty : String) (t : Transaction) (ts : List Transaction) :
    sumOfType ty (t :: ts) =
      (if t.transaction_type = ty then t.amount else 0) + sumOfType ty ts := by
  by_cases h : t.transaction_type = ty <;> simp [sumOfType, h]

/-- Typed sums are invariant under permutation of the list. -/
theorem sumOfType_perm (ty : String) (ts tsPerm : List Transaction)
    (hperm : ts.Perm tsPerm) : sumOfType ty ts = sumOfType ty tsPerm :=
  List.Perm.sum_eq ((hperm.filter _).map _)

/-- Folding income, expense and savings transactions through the money
engine replays the signed sums on top of the opening balance. -/
theorem applyAll_money (ts : List Transaction) :
    ∀ (p : Profile) (b : Money), p.money_on_hand = some b →
    (∀ t ∈ ts, t.transaction_type = "income" ∨ t.transaction_type = "expense" ∨
      t.transaction_type = "savings") →
    applyAll ts p = ⟨p.monthly_income,
      some (b + sumOfType "income" ts - sumOfType "expense" ts - sumOfType "savings" ts)⟩ := by
  induction ts with
  | nil =>
      intro p b hb _
      cases p with
      | mk mi moh =>
          simp only [applyAll, List.foldl_nil, sumOfType, List.filter_nil,
            List.map_nil, List.sum_nil]
          simp at hb
          rw [hb]
          norm_num
  | cons t ts ih =>
      intro p b hb hty
      have htail : ∀ t' ∈ ts, t'.transaction_type = "income" ∨
          t'.transaction_type = "expense" ∨ t'.transaction_type = "savings" :=
        fun t' ht' => hty t' (by simp [ht'])
      have hstep : applyAll (t :: ts) p = applyAll ts (applyTransactionToProfile t p) := rfl
      rcases hty t (by simp) with h | h | h
      · have hp : applyTransactionToProfile t p = { p with money_on_hand := some (b + t.amount) } := by
          simp [applyTransactionToProfile, h, hb]
        rw [hstep, hp, ih _ (b + t.amount) rfl htail]
        simp [sumOfType_cons, h]
        ring_nf
      · have hp : applyTransactionToProfile t p = { p with money_on_hand := some (b - t.amount) } := by
          simp [applyTransactionToProfile, h, hb]
        rw [hstep, hp, ih _ (b - t.amount) rfl htail]
        simp [sumOfType_cons, h]
        ring_nf
      · have hp : applyTransactionToProfile t p = { p with money_on_hand := some (b - t.amount) } := by
          simp [applyTransactionToProfile, h, hb]
        rw [hstep, hp, ih _ (b - t.amount) rfl htail]
        simp [sumOfType_cons, h]
        ring_nf

/-- Claim C1: starting from balance b, applying any finite sequence of
income, expense and savings transactions through
apply_transaction_to_profile ends with money_on_hand equal to b plus the
income total minus the expense total minus the savings total, and any
permutation of the sequence produces the same final profile. -/
theorem conservation_of_money (p : Profile) (b : Money) (ts tsPerm : List Transaction)
    (hb : p.money_on_hand = some b)
    (hty : ∀ t ∈ ts, t.transaction_type = "income" ∨ t.transaction_type = "expense" ∨
      t.transaction_type = "savings")
    (hperm : ts.Perm tsPerm) :
    (applyAll ts p).money_on_hand =
      some (b + sumOfType "income" ts - sumOfType "expense" ts - sumOfType "savings" ts) ∧
    applyAll tsPerm p = applyAll ts p := by
  have h1 := applyAll_money ts p b hb hty
  have hty2 : ∀ t ∈ tsPerm, t.transaction_type = "income" ∨
      t.transaction_type = "expense" ∨ t.transaction_type = "savings" :=
    fun t ht => hty t (hperm.mem_iff.mpr ht)
  have h2 := applyAll_money tsPerm p b hb hty2
  refine ⟨by rw [h1], ?_⟩
  rw [h1, h2, sumOfType_perm "income" ts tsPerm hperm,
    sumOfType_perm "expense" ts tsPerm hperm, sumOfType_perm "savings" ts tsPerm hperm]

/-- Witness for C1: balance 100 with an income of 7 and an expense of 2,
in both orders, ends at 105 either way. -/
theorem conservation_of_money_witness :
    (applyAll [⟨"A", "", 7, "income", none, none⟩, ⟨"B", "", 2, "expense", none, none⟩]
      ⟨0, some 100⟩).money_on_hand = some 105 ∧
    applyAll [⟨"B", "", 2, "expense", none, none⟩, ⟨"A", "", 7, "income", none, none⟩]
      ⟨0, some 100⟩ =
    applyAll [⟨"A", "", 7, "income", none, none⟩, ⟨"B", "", 2, "expense", none, none⟩]
      ⟨0, some 100⟩ := by
  have h := conservation_of_money ⟨0, some 100⟩ 100
    [⟨"A", "", 7, "income", none, none⟩, ⟨"B", "", 2, "expense", none, none⟩]
    [⟨"B", "", 2, "expense", none, none⟩, ⟨"A", "", 7, "income", none, none⟩]
    rfl (by decide) (List.Perm.swap _ _ _)
  refine ⟨?_, h.2⟩
  rw [h.1]
  simp [sumOfType]
  norm_num
